import Mathlib

/-!
Verification of the air-monitor repository: the PurpleAir proxy route
(`src/app/api/purple-air/[sensorId]/route.ts`) and the AQI converter
(`src/components/PurpleAirDisplay.tsx`), shallowly embedded in Lean 4.

Timestamps are modelled as integers (JavaScript `Date.now()` milliseconds),
concentrations as rationals (the decimal literals of the source are exact
rationals), and the two in-memory `Map`s as functions from keys to optional
entries.
-/

namespace AirMonitor

/-! ## AQI converter (`PurpleAirDisplay.tsx`) -/

/-- JavaScript `Math.round`: rounds to the nearest integer, halves toward
positive infinity, i.e. `⌊x + 1/2⌋`. -/
def mathRound (x : ℚ) : ℤ := ⌊x + 1 / 2⌋

/-- Embedding of `calculateAQI` from `PurpleAirDisplay.tsx`. -/
def calculateAQI (pm25 : ℚ) : ℤ :=
  if pm25 ≤ 12.0 then mathRound ((50 / 12.0) * pm25)
  else if pm25 ≤ 35.4 then mathRound (((100 - 51) / (35.4 - 12.1)) * (pm25 - 12.1) + 51)
  else if pm25 ≤ 55.4 then mathRound (((150 - 101) / (55.4 - 35.5)) * (pm25 - 35.5) + 101)
  else mathRound (((200 - 151) / (150.4 - 55.5)) * (pm25 - 55.5) + 151)

/-- Embedding of `getAQICategory` from `PurpleAirDisplay.tsx` (category only;
the color is a display detail carried alongside). -/
def getAQICategory (aqi : ℤ) : String :=
  if aqi ≤ 50 then "Good"
  else if aqi ≤ 100 then "Moderate"
  else if aqi ≤ 150 then "Unhealthy for Sensitive Groups"
  else if aqi ≤ 200 then "Unhealthy"
  else "Very Unhealthy"

/-! ## Proxy route (`route.ts`)

Timestamps are `Date.now()` values in milliseconds, modelled as `ℤ`. The two
module-level `Map`s are modelled as functions from keys to optional entries;
`Map.set` and `Map.delete` become pointwise functional updates. -/

/-- `RATE_LIMIT_WINDOW`: 5 minutes in milliseconds. -/
def RATE_LIMIT_WINDOW : ℤ := 300000

/-- `MAX_REQUESTS`: at most 10 requests per window. -/
def MAX_REQUESTS : Nat := 10

/-- `CACHE_DURATION`: 30 minutes in milliseconds. -/
def CACHE_DURATION : ℤ := 1800000

/-- An entry of the `rateLimit` map: a request count and a window-start
timestamp. -/
structure RateLimitEntry where
  count : Nat
  timestamp : ℤ
deriving DecidableEq, Repr

/-- The upstream sensor payload (`PurpleAirData` in `route.ts`): the handler
never inspects it, so its fields mirror the declared interface with exact
rational numbers for the JavaScript number fields. -/
structure PurpleAirData where
  pm25_10minute : ℚ
  temperature : ℚ
  humidity : ℚ
deriving DecidableEq, Repr

/-- An entry of the `cache` map: the fetched payload and a fetch timestamp. -/
structure CacheEntry where
  data : PurpleAirData
  timestamp : ℤ
deriving DecidableEq, Repr

/-- The `rateLimit` map, keyed by client IP. -/
def RLMap : Type := String → Option RateLimitEntry

/-- The `cache` map, keyed by sensor id. -/
def CacheMap : Type := String → Option CacheEntry

/-- `Map.set` on the rate-limit map. -/
def RLMap.set (m : RLMap) (ip : String) (e : RateLimitEntry) : RLMap :=
  fun k => if k = ip then some e else m k

/-- `Map.set` on the cache map. -/
def CacheMap.set (c : CacheMap) (sid : String) (e : CacheEntry) : CacheMap :=
  fun k => if k = sid then some e else c k

/-- `Map.delete` on the cache map. -/
def CacheMap.del (c : CacheMap) (sid : String) : CacheMap :=
  fun k => if k = sid then none else c k

/-- Embedding of `checkRateLimit` from `route.ts`. The current time is a
parameter (the code reads `Date.now()`); the result is the returned boolean
together with the updated `rateLimit` map. -/
def checkRateLimit (now : ℤ) (ip : String) (m : RLMap) : Bool × RLMap :=
  match m ip with
  | none => (true, m.set ip ⟨1, now⟩)
  | some u =>
    if now - u.timestamp > RATE_LIMIT_WINDOW then
      (true, m.set ip ⟨1, now⟩)
    else if u.count < MAX_REQUESTS then
      (true, m.set ip ⟨u.count + 1, u.timestamp⟩)
    else
      (false, m)

/-- Embedding of `getCachedData` from `route.ts`: the returned payload (or
`none`) together with the updated cache map (expired entries are deleted). -/
def getCachedData (now : ℤ) (sid : String) (c : CacheMap) :
    Option PurpleAirData × CacheMap :=
  match c sid with
  | none => (none, c)
  | some item =>
    if now - item.timestamp < CACHE_DURATION then
      (some item.data, c)
    else
      (none, c.del sid)

/-- Embedding of `setCachedData` from `route.ts` (lines 58–63): an
unconditional overwrite with the current timestamp. -/
def setCachedData (now : ℤ) (sid : String) (d : PurpleAirData) (c : CacheMap) :
    CacheMap :=
  c.set sid ⟨d, now⟩

/-- Sweep of the `rateLimit` map, as performed by the `setInterval` callback
(and identically by the cleanup loops inside the second revision's
`setCachedData`): every entry whose age strictly exceeds
`RATE_LIMIT_WINDOW` is deleted. The map's entries are swept pointwise, which
matches the loop because each iteration touches only its own key. -/
def sweepRateLimit (now : ℤ) (m : RLMap) : RLMap :=
  fun k =>
    match m k with
    | some e => if now - e.timestamp > RATE_LIMIT_WINDOW then none else some e
    | none => none

/-- Sweep of the `cache` map, as performed by the `setInterval` callback:
every entry whose age strictly exceeds `CACHE_DURATION` is deleted. -/
def sweepCache (now : ℤ) (c : CacheMap) : CacheMap :=
  fun k =>
    match c k with
    | some e => if now - e.timestamp > CACHE_DURATION then none else some e
    | none => none

/-- The module state of `route.ts`: the two in-memory maps. -/
structure ServerState where
  rateLimit : RLMap
  cache : CacheMap

/-- The body of the `setInterval` callback, applied to the whole state. -/
def periodicCleanup (now : ℤ) (s : ServerState) : ServerState :=
  ⟨sweepRateLimit now s.rateLimit, sweepCache now s.cache⟩

/-- Outcome of the `fetch` to the PurpleAir API, as observed by the handler:
a parsed payload, a non-ok HTTP status (`!response.ok`), or a thrown
transport error. -/
inductive FetchResult where
  | ok (d : PurpleAirData)
  | httpError
  | transportError
deriving DecidableEq, Repr

/-- Whether the fetch outcome is a failure (non-ok status or thrown error). -/
def FetchResult.failed : FetchResult → Bool
  | .ok _ => false
  | .httpError => true
  | .transportError => true

/-- A response body: either the JSON of a sensor payload or a `{error}`
object. -/
inductive Body where
  | payload (d : PurpleAirData)
  | error (msg : String)
deriving DecidableEq, Repr

/-- An HTTP response as produced by `NextResponse.json` (status 200 when no
status is given). -/
structure HttpResponse where
  status : Nat
  body : Body
deriving DecidableEq, Repr

/-- The 429 error message of `route.ts`. -/
def rateLimitMsg : String := "Rate limit exceeded. Please try again later."

/-- The single generic 500 error message of `route.ts`. -/
def fetchFailMsg : String := "Failed to fetch sensor data"

/-- Result of one `GET` invocation: the response, the final module state, and
whether an upstream `fetch` was initiated. -/
structure GETResult where
  resp : HttpResponse
  state : ServerState
  fetched : Bool

/-- Embedding of the `GET` handler of `route.ts`. The current time and the
outcome of the (potential) upstream fetch are parameters; `ip` is the client
identity extracted from the headers and `sid` the sensor id from the route
params. -/
def GET (now : ℤ) (ip sid : String) (f : FetchResult) (s : ServerState) :
    GETResult :=
  let rc := checkRateLimit now ip s.rateLimit
  if rc.1 = false then
    ⟨⟨429, Body.error rateLimitMsg⟩, ⟨rc.2, s.cache⟩, false⟩
  else
    let gc := getCachedData now sid s.cache
    match gc.1 with
    | some d => ⟨⟨200, Body.payload d⟩, ⟨rc.2, gc.2⟩, false⟩
    | none =>
      match f with
      | .ok d =>
          ⟨⟨200, Body.payload d⟩, ⟨rc.2, setCachedData now sid d gc.2⟩, true⟩
      | .httpError => ⟨⟨500, Body.error fetchFailMsg⟩, ⟨rc.2, gc.2⟩, true⟩
      | .transportError => ⟨⟨500, Body.error fetchFailMsg⟩, ⟨rc.2, gc.2⟩, true⟩

/-- A sequence of calls to `checkRateLimit` from one client at the given
times: the list of returned booleans and the final map. -/
def rateRun (ip : String) (m : RLMap) : List ℤ → List Bool × RLMap
  | [] => ([], m)
  | t :: ts =>
    let r := checkRateLimit t ip m
    let rest := rateRun ip r.2 ts
    (r.1 :: rest.1, rest.2)

/-- The implicit invariant of the `rateLimit` map: every stored entry has a
count between 1 and `MAX_REQUESTS`. -/
def rlInv (m : RLMap) : Prop :=
  ∀ ip e, m ip = some e → 1 ≤ e.count ∧ e.count ≤ MAX_REQUESTS

/-! ## Sample values for concrete evaluations -/

/-- A sample client IP. -/
def ipA : String := "203.0.113.7"

/-- The sensor id used by the page (`page.tsx`). -/
def sidA : String := "68657"

/-- A sample upstream payload. -/
def dataA : PurpleAirData := ⟨9.5, 70, 40⟩

/-- The empty rate-limit map. -/
def emptyRL : RLMap := fun _ => none

/-- The empty cache map. -/
def emptyCache : CacheMap := fun _ => none

/-- The initial module state: both maps empty. -/
def state0 : ServerState := ⟨emptyRL, emptyCache⟩

/-- A rate-limit map on which `ipA` has exhausted its budget at time 0. -/
def fullRL : RLMap := emptyRL.set ipA ⟨10, 0⟩

/-- A state in which `ipA` has exhausted its budget at time 0. -/
def stateFull : ServerState := ⟨fullRL, emptyCache⟩

/-! ## Helper lemmas -/

theorem rl_set_apply (m : RLMap) (ip : String) (e : RateLimitEntry)
    (k : String) : m.set ip e k = if k = ip then some e else m k := rfl

theorem rl_set_same (m : RLMap) (ip : String) (e : RateLimitEntry) :
    m.set ip e ip = some e := by simp [RLMap.set]

theorem cache_set_apply (c : CacheMap) (sid : String) (e : CacheEntry)
    (k : String) : c.set sid e k = if k = sid then some e else c k := rfl

theorem cache_set_same (c : CacheMap) (sid : String) (e : CacheEntry) :
    c.set sid e sid = some e := by simp [CacheMap.set]

theorem cache_del_apply (c : CacheMap) (sid : String) (k : String) :
    c.del sid k = if k = sid then none else c k := rfl

theorem checkRateLimit_fresh (now : ℤ) (ip : String) (m : RLMap)
    (h : m ip = none) :
    checkRateLimit now ip m = (true, m.set ip ⟨1, now⟩) := by
  simp [checkRateLimit, h]

theorem checkRateLimit_reset (now : ℤ) (ip : String) (m : RLMap)
    (u : RateLimitEntry) (h : m ip = some u)
    (hw : now - u.timestamp > RATE_LIMIT_WINDOW) :
    checkRateLimit now ip m = (true, m.set ip ⟨1, now⟩) := by
  simp [checkRateLimit, h, hw]

theorem checkRateLimit_incr (now : ℤ) (ip : String) (m : RLMap)
    (u : RateLimitEntry) (h : m ip = some u)
    (hw : now - u.timestamp ≤ RATE_LIMIT_WINDOW) (hk : u.count < MAX_REQUESTS) :
    checkRateLimit now ip m = (true, m.set ip ⟨u.count + 1, u.timestamp⟩) := by
  simp [checkRateLimit, h, hk, not_lt.mpr hw]

theorem checkRateLimit_deny (now : ℤ) (ip : String) (m : RLMap)
    (u : RateLimitEntry) (h : m ip = some u)
    (hw : now - u.timestamp ≤ RATE_LIMIT_WINDOW)
    (hk : ¬ u.count < MAX_REQUESTS) :
    checkRateLimit now ip m = (false, m) := by
  simp [checkRateLimit, h, hk, not_lt.mpr hw]

/-- A denying call to `checkRateLimit` leaves the map untouched. -/
theorem checkRateLimit_denied_state (now : ℤ) (ip : String) (m : RLMap)
    (h : (checkRateLimit now ip m).1 = false) :
    (checkRateLimit now ip m).2 = m := by
  unfold checkRateLimit at *
  cases hm : m ip with
  | none => simp [hm] at h
  | some u =>
    simp only [hm] at h ⊢
    by_cases hw : now - u.timestamp > RATE_LIMIT_WINDOW
    · simp [hw] at h
    · by_cases hk : u.count < MAX_REQUESTS
      · simp [hw, hk] at h
      · simp [hw, hk]

/-- Any call to `checkRateLimit` whose entry count is below the limit (or
whose entry is absent/expired) is allowed. -/
theorem checkRateLimit_allowed_of_low (now : ℤ) (ip : String) (m : RLMap)
    (h : ∀ u, m ip = some u → u.count < MAX_REQUESTS) :
    (checkRateLimit now ip m).1 = true := by
  unfold checkRateLimit
  cases hm : m ip with
  | none => simp
  | some u =>
    by_cases hw : now - u.timestamp > RATE_LIMIT_WINDOW
    · simp [hw]
    · simp [hw, h u hm]

/-- When the rate check allows the caller and the cache holds a valid entry,
`GET` answers from the cache and initiates no fetch. -/
theorem GET_allowed_hit (now : ℤ) (ip sid : String) (f : FetchResult)
    (s : ServerState) (d : PurpleAirData)
    (h1 : (checkRateLimit now ip s.rateLimit).1 = true)
    (h2 : (getCachedData now sid s.cache).1 = some d) :
    GET now ip sid f s =
      ⟨⟨200, Body.payload d⟩,
       ⟨(checkRateLimit now ip s.rateLimit).2, (getCachedData now sid s.cache).2⟩,
       false⟩ := by
  simp [GET, h1, h2]

/-- When the rate check allows the caller, the cache misses and the fetch
succeeds, `GET` stores the payload and returns it. -/
theorem GET_allowed_miss_ok (now : ℤ) (ip sid : String) (d : PurpleAirData)
    (s : ServerState)
    (h1 : (checkRateLimit now ip s.rateLimit).1 = true)
    (h2 : (getCachedData now sid s.cache).1 = none) :
    GET now ip sid (FetchResult.ok d) s =
      ⟨⟨200, Body.payload d⟩,
       ⟨(checkRateLimit now ip s.rateLimit).2,
        setCachedData now sid d (getCachedData now sid s.cache).2⟩,
       true⟩ := by
  simp [GET, h1, h2]

/-- When the rate check allows the caller and the cache misses, `GET`
initiates an upstream fetch whatever its outcome. -/
theorem GET_fetches (now : ℤ) (ip sid : String) (f : FetchResult)
    (s : ServerState)
    (h1 : (checkRateLimit now ip s.rateLimit).1 = true)
    (h2 : (getCachedData now sid s.cache).1 = none) :
    (GET now ip sid f s).fetched = true := by
  cases f <;> simp [GET, h1, h2]

/-- During a run of in-window calls, the count grows by one per call and every
call is allowed. -/
theorem rateRun_allows (ip : String) :
    ∀ (ts : List ℤ) (m : RLMap) (k : Nat) (t0 : ℤ),
    m ip = some ⟨k, t0⟩ → k + ts.length ≤ MAX_REQUESTS →
    (∀ t ∈ ts, t - t0 ≤ RATE_LIMIT_WINDOW) →
    (rateRun ip m ts).1 = List.replicate ts.length true ∧
    (rateRun ip m ts).2 ip = some ⟨k + ts.length, t0⟩
  | [], m, k, t0 => by
    intro hm _ _
    simpa [rateRun] using hm
  | t :: ts, m, k, t0 => by
    intro hm hle hwin
    have hk : k < MAX_REQUESTS := by
      have := hle
      simp [List.length_cons] at this
      omega
    have hstep := checkRateLimit_incr t ip m ⟨k, t0⟩ hm
      (hwin t (List.mem_cons_self t ts)) hk
    have hm' : m.set ip ⟨k + 1, t0⟩ ip = some ⟨k + 1, t0⟩ := rl_set_same ..
    have hrec := rateRun_allows ip ts (m.set ip ⟨k + 1, t0⟩) (k + 1) t0 hm'
      (by simp [List.length_cons] at hle; omega)
      (fun t ht => hwin t (List.mem_cons_of_mem _ ht))
    simp only [rateRun, hstep, List.length_cons]
    refine ⟨?_, ?_⟩
    · simp [hrec.1, List.replicate_succ]
    · have := hrec.2
      simpa [Nat.add_comm, Nat.add_left_comm, Nat.add_assoc] using this

/-- The exhausted rate-limit map `fullRL` satisfies the count invariant. -/
theorem fullRL_inv : rlInv fullRL := by
  intro ip e he
  simp only [fullRL, emptyRL, RLMap.set] at he
  split at he
  · injection he with h
    subst h
    exact ⟨by norm_num, by norm_num [MAX_REQUESTS]⟩
  · exact absurd he (by simp)

end AirMonitor

open AirMonitor

/-- C2: the index conversion maps each boundary concentration to the expected
band-transition index value: 12.0 ↦ 50, 12.1 ↦ 51, 35.4 ↦ 100, 35.5 ↦ 101,
55.4 ↦ 150, 55.5 ↦ 151. -/
theorem calculateAQI_boundary_values :
    AirMonitor.calculateAQI 12.0 = 50 ∧
    AirMonitor.calculateAQI 12.1 = 51 ∧
    AirMonitor.calculateAQI 35.4 = 100 ∧
    AirMonitor.calculateAQI 35.5 = 101 ∧
    AirMonitor.calculateAQI 55.4 = 150 ∧
    AirMonitor.calculateAQI 55.5 = 151 := by
  refine ⟨?_, ?_, ?_, ?_, ?_, ?_⟩ <;>
    norm_num [AirMonitor.calculateAQI, AirMonitor.mathRound, Int.floor_eq_iff]

/-- C3: for every concentration `c` with `0 ≤ c ≤ 12.0`, `calculateAQI`
returns the rounded linear scaling `round((50/12)·c)`, and the result is at
most 50. -/
theorem calculateAQI_low_band (c : ℚ) (_h0 : 0 ≤ c) (h12 : c ≤ 12.0) :
    AirMonitor.calculateAQI c = AirMonitor.mathRound ((50 / 12.0) * c) ∧
    AirMonitor.calculateAQI c ≤ 50 := by
  have hb : AirMonitor.calculateAQI c = AirMonitor.mathRound ((50 / 12.0) * c) := by
    unfold AirMonitor.calculateAQI
    rw [if_pos h12]
  refine ⟨hb, ?_⟩
  rw [hb]
  unfold AirMonitor.mathRound
  have hlt : (50 : ℚ) / 12.0 * c + 1 / 2 < 50 + 1 := by
    norm_num
    linarith
  calc ⌊(50 : ℚ) / 12.0 * c + 1 / 2⌋ ≤ ⌊(50 : ℚ) + 1 / 2⌋ := by
        apply Int.floor_le_floor
        norm_num
        linarith
    _ = 50 := by norm_num [Int.floor_eq_iff]

/-- Witness for C3 at the concrete concentration 6. -/
theorem calculateAQI_low_band_witness :
    AirMonitor.calculateAQI 6 = AirMonitor.mathRound ((50 / 12.0) * 6) ∧
    AirMonitor.calculateAQI 6 ≤ 50 :=
  calculateAQI_low_band 6 (by norm_num) (by norm_num)

/-- C4: above the last breakpoint 150.4 the conversion keeps using the final
band formula `round((200−151)/(150.4−55.5)·(c−55.5)+151)` with no upper
clamp, and for every concentration of at least 160 the result exceeds 200. -/
theorem calculateAQI_no_upper_clamp (c : ℚ) :
    (150.4 < c →
      AirMonitor.calculateAQI c =
        AirMonitor.mathRound (((200 - 151) / (150.4 - 55.5)) * (c - 55.5) + 151)) ∧
    (160 ≤ c → 200 < AirMonitor.calculateAQI c) := by
  constructor
  · intro hc
    unfold AirMonitor.calculateAQI
    rw [if_neg (by norm_num; linarith), if_neg (by norm_num; linarith),
      if_neg (by norm_num; linarith)]
  · intro hc
    unfold AirMonitor.calculateAQI
    rw [if_neg (by norm_num; linarith), if_neg (by norm_num; linarith),
      if_neg (by norm_num; linarith)]
    unfold AirMonitor.mathRound
    have h201 : (201 : ℚ) ≤ (200 - 151) / (150.4 - 55.5) * (c - 55.5) + 151 + 1 / 2 := by
      norm_num
      linarith
    have h2 : ((201 : ℤ) : ℚ) ≤
        (200 - 151) / (150.4 - 55.5) * (c - 55.5) + 151 + 1 / 2 := by
      norm_num
      linarith
    have := Int.le_floor.mpr h2
    exact lt_of_lt_of_le (by norm_num) this

/-- Witness for C4 at the concrete concentration 200. -/
theorem calculateAQI_no_upper_clamp_witness :
    AirMonitor.calculateAQI 200 =
      AirMonitor.mathRound (((200 - 151) / (150.4 - 55.5)) * (200 - 55.5) + 151) ∧
    200 < AirMonitor.calculateAQI 200 :=
  ⟨(calculateAQI_no_upper_clamp 200).1 (by norm_num),
   (calculateAQI_no_upper_clamp 200).2 (by norm_num)⟩

/-- C1: from a fresh client entry, 11 calls to the rate limiter all lying
within the 300-second window of the first call's recorded timestamp see the
first 10 allowed and the 11th denied, and the handler answers the denied
request with the 429 rejection. -/
theorem rate_limit_11th_denied (ip sid : String) (m : RLMap) (c : CacheMap)
    (f : FetchResult) (t0 t10 : ℤ) (ts : List ℤ)
    (hfresh : m ip = none) (hlen : ts.length = 9)
    (hwin : ∀ t ∈ ts, t - t0 ≤ RATE_LIMIT_WINDOW)
    (hwin10 : t10 - t0 ≤ RATE_LIMIT_WINDOW) :
    (rateRun ip m (t0 :: ts)).1 = List.replicate 10 true ∧
    (checkRateLimit t10 ip (rateRun ip m (t0 :: ts)).2).1 = false ∧
    (GET t10 ip sid f ⟨(rateRun ip m (t0 :: ts)).2, c⟩).resp =
      ⟨429, Body.error rateLimitMsg⟩ := by
  have h0 := checkRateLimit_fresh t0 ip m hfresh
  have h1 : m.set ip ⟨1, t0⟩ ip = some ⟨1, t0⟩ := rl_set_same ..
  have hrec := rateRun_allows ip ts (m.set ip ⟨1, t0⟩) 1 t0 h1
    (by simp [MAX_REQUESTS, hlen]) hwin
  have hrun1 : (rateRun ip m (t0 :: ts)).1 =
      true :: (rateRun ip (m.set ip ⟨1, t0⟩) ts).1 := by
    simp [rateRun, h0]
  have hrun2 : (rateRun ip m (t0 :: ts)).2 =
      (rateRun ip (m.set ip ⟨1, t0⟩) ts).2 := by
    simp [rateRun, h0]
  have hfinal : (rateRun ip m (t0 :: ts)).2 ip = some ⟨10, t0⟩ := by
    rw [hrun2]
    have h2 := hrec.2
    rwa [hlen] at h2
  have hdeny := checkRateLimit_deny t10 ip _ ⟨10, t0⟩ hfinal hwin10
    (by simp [MAX_REQUESTS])
  refine ⟨?_, ?_, ?_⟩
  · rw [hrun1, hrec.1, hlen]
    rfl
  · rw [hdeny]
  · simp [GET, hdeny]

/-- Witness for C1: eleven calls from `ipA` at times 0 through 10. -/
theorem rate_limit_11th_denied_witness :
    (rateRun ipA emptyRL (0 :: [1, 2, 3, 4, 5, 6, 7, 8, 9])).1 =
      List.replicate 10 true ∧
    (checkRateLimit 10 ipA
      (rateRun ipA emptyRL (0 :: [1, 2, 3, 4, 5, 6, 7, 8, 9])).2).1 = false ∧
    (GET 10 ipA sidA FetchResult.httpError
      ⟨(rateRun ipA emptyRL (0 :: [1, 2, 3, 4, 5, 6, 7, 8, 9])).2,
       emptyCache⟩).resp = ⟨429, Body.error rateLimitMsg⟩ :=
  rate_limit_11th_denied ipA sidA emptyRL emptyCache FetchResult.httpError
    0 10 [1, 2, 3, 4, 5, 6, 7, 8, 9] rfl rfl (by decide) (by decide)

/-- C5: the cache `get` returns the stored payload exactly when the entry is
younger than 30 minutes, otherwise deletes the entry and reports absent; the
cache `put` overwrites the key unconditionally with the current timestamp. -/
theorem cache_get_put_semantics (now : ℤ) (k : String) (c : CacheMap) :
    (∀ e, c k = some e →
      (now - e.timestamp < CACHE_DURATION →
        getCachedData now k c = (some e.data, c)) ∧
      (¬ now - e.timestamp < CACHE_DURATION →
        (getCachedData now k c).1 = none ∧
        ∀ k2, (getCachedData now k c).2 k2 = if k2 = k then none else c k2)) ∧
    (c k = none → getCachedData now k c = (none, c)) ∧
    (∀ d k2, setCachedData now k d c k2 =
      if k2 = k then some (CacheEntry.mk d now) else c k2) := by
  refine ⟨?_, ?_, ?_⟩
  · intro e he
    constructor
    · intro hv
      simp [getCachedData, he, hv]
    · intro hv
      refine ⟨by simp [getCachedData, he, hv], ?_⟩
      intro k2
      simp [getCachedData, he, hv, CacheMap.del]
  · intro he
    simp [getCachedData, he]
  · intro d k2
    simp [setCachedData, CacheMap.set]

/-- Witness for C5: a fresh entry for `sidA` written at time 0 is returned
unchanged at time 10. -/
theorem cache_get_put_semantics_witness :
    getCachedData 10 sidA (CacheMap.set emptyCache sidA ⟨dataA, 0⟩) =
      (some dataA, CacheMap.set emptyCache sidA ⟨dataA, 0⟩) :=
  ((cache_get_put_semantics 10 sidA
      (CacheMap.set emptyCache sidA ⟨dataA, 0⟩)).1
    ⟨dataA, 0⟩ (cache_set_same ..)).1 (by decide)

/-- C8: the periodic sweep removes from the rate-limit table every entry whose
age exceeds the 300-second window and from the cache table every entry whose
age exceeds the 30-minute duration, and leaves every younger entry in both
tables unchanged. -/
theorem periodic_sweep_semantics (now : ℤ) (s : ServerState) (k : String) :
    (∀ e, s.rateLimit k = some e →
      (now - e.timestamp > RATE_LIMIT_WINDOW →
        (periodicCleanup now s).rateLimit k = none) ∧
      (now - e.timestamp ≤ RATE_LIMIT_WINDOW →
        (periodicCleanup now s).rateLimit k = some e)) ∧
    (∀ e, s.cache k = some e →
      (now - e.timestamp > CACHE_DURATION →
        (periodicCleanup now s).cache k = none) ∧
      (now - e.timestamp ≤ CACHE_DURATION →
        (periodicCleanup now s).cache k = some e)) := by
  constructor
  · intro e he
    constructor
    · intro hold
      simp [periodicCleanup, sweepRateLimit, he, hold]
    · intro hyoung
      simp [periodicCleanup, sweepRateLimit, he, not_lt.mpr hyoung]
  · intro e he
    constructor
    · intro hold
      simp [periodicCleanup, sweepCache, he, hold]
    · intro hyoung
      simp [periodicCleanup, sweepCache, he, not_lt.mpr hyoung]

/-- Witness for C8: at time 300001 the sweep removes the exhausted entry for
`ipA` recorded at time 0. -/
theorem periodic_sweep_semantics_witness :
    (periodicCleanup 300001 stateFull).rateLimit ipA = none :=
  ((periodic_sweep_semantics 300001 stateFull ipA).1 ⟨10, 0⟩
    (by decide)).1 (by decide)

/-- C9: every entry of the rate-limit table has a count between 1 and 10, and
both the rate check (on any input) and the periodic sweep preserve this
invariant. -/
theorem rate_limit_count_invariant (now : ℤ) (ip : String) (m : RLMap)
    (s : ServerState) :
    (rlInv m → rlInv (checkRateLimit now ip m).2) ∧
    (rlInv s.rateLimit → rlInv (periodicCleanup now s).rateLimit) := by
  constructor
  · intro hinv
    unfold checkRateLimit
    cases hm : m ip with
    | none =>
      intro ip2 e he
      simp only [RLMap.set] at he
      split at he
      · injection he with h
        subst h
        exact ⟨by norm_num, by norm_num [MAX_REQUESTS]⟩
      · exact hinv ip2 e he
    | some u =>
      by_cases hw : now - u.timestamp > RATE_LIMIT_WINDOW
      · simp only [if_pos hw]
        intro ip2 e he
        simp only [RLMap.set] at he
        split at he
        · injection he with h
          subst h
          exact ⟨by norm_num, by norm_num [MAX_REQUESTS]⟩
        · exact hinv ip2 e he
      · by_cases hk : u.count < MAX_REQUESTS
        · simp only [if_neg hw, if_pos hk]
          intro ip2 e he
          simp only [RLMap.set] at he
          split at he
          · injection he with h
            subst h
            exact ⟨Nat.succ_le_succ (Nat.zero_le _), hk⟩
          · exact hinv ip2 e he
        · simp only [if_neg hw, if_neg hk]
          exact hinv
  · intro hinv ip2 e he
    simp only [periodicCleanup, sweepRateLimit] at he
    split at he
    · rename_i u heq
      split at he
      · exact absurd he (by simp)
      · injection he with h
        subst h
        exact hinv ip2 u heq
    · exact absurd he (by simp)

/-- Witness for C9: the invariant holds after `ipA`'s denied call at time 5 on
the exhausted map, and after sweeping the initial state at time 0. -/
theorem rate_limit_count_invariant_witness :
    rlInv (checkRateLimit 5 ipA fullRL).2 ∧
    rlInv (periodicCleanup 0 stateFull).rateLimit :=
  ⟨(rate_limit_count_invariant 5 ipA fullRL stateFull).1 fullRL_inv,
   (rate_limit_count_invariant 0 ipA fullRL stateFull).2 fullRL_inv⟩

/-- C10: when the rate check denies a request, the handler call writes
nothing: the response is the 429 rejection, the entire module state (the
client's entry, the rest of the rate-limit table and the whole cache table)
is returned unchanged, and no upstream fetch is initiated. -/
theorem denial_writes_nothing (now : ℤ) (ip sid : String) (f : FetchResult)
    (s : ServerState) (h : (checkRateLimit now ip s.rateLimit).1 = false) :
    GET now ip sid f s = ⟨⟨429, Body.error rateLimitMsg⟩, s, false⟩ := by
  have h2 := checkRateLimit_denied_state now ip s.rateLimit h
  simp [GET, h, h2]

/-- Witness for C10: the denied request of `ipA` at time 5 against the
exhausted state leaves the state untouched. -/
theorem denial_writes_nothing_witness :
    GET 5 ipA sidA FetchResult.httpError stateFull =
      ⟨⟨429, Body.error rateLimitMsg⟩, stateFull, false⟩ :=
  denial_writes_nothing 5 ipA sidA FetchResult.httpError stateFull (by decide)

/-- C6: starting from a state with no cache entry for the sensor and a fresh
client, a first successful request fetches upstream and returns the payload;
a second request within 30 minutes of the first fetch performs no upstream
call and returns the identical payload; and a request more than 30 minutes
after the stored fetch timestamp performs a fresh upstream call. -/
theorem cache_single_upstream_call (s : ServerState) (ip sid : String)
    (t1 t2 : ℤ) (d : PurpleAirData) (f2 : FetchResult)
    (hrl : s.rateLimit ip = none) (hc : s.cache sid = none)
    (_h12 : t1 ≤ t2) (hfresh : t2 - t1 < CACHE_DURATION) :
    (GET t1 ip sid (FetchResult.ok d) s).fetched = true ∧
    (GET t1 ip sid (FetchResult.ok d) s).resp = ⟨200, Body.payload d⟩ ∧
    (GET t2 ip sid f2 (GET t1 ip sid (FetchResult.ok d) s).state).fetched =
      false ∧
    (GET t2 ip sid f2 (GET t1 ip sid (FetchResult.ok d) s).state).resp =
      ⟨200, Body.payload d⟩ ∧
    (∀ t3 f3, t3 - t1 > CACHE_DURATION →
      (GET t3 ip sid f3 (GET t1 ip sid (FetchResult.ok d) s).state).fetched =
        true) := by
  have hrc1 := checkRateLimit_fresh t1 ip s.rateLimit hrl
  have hgc1 : getCachedData t1 sid s.cache = (none, s.cache) := by
    simp [getCachedData, hc]
  have hr1 := GET_allowed_miss_ok t1 ip sid d s (by rw [hrc1]) (by rw [hgc1])
  have hstate1 : (GET t1 ip sid (FetchResult.ok d) s).state =
      ServerState.mk (RLMap.set s.rateLimit ip ⟨1, t1⟩)
        (CacheMap.set s.cache sid ⟨d, t1⟩) := by
    rw [hr1, hrc1, hgc1]
    rfl
  have hm1 : (GET t1 ip sid (FetchResult.ok d) s).state.rateLimit ip =
      some ⟨1, t1⟩ := by
    rw [hstate1]
    exact rl_set_same ..
  have hc1 : (GET t1 ip sid (FetchResult.ok d) s).state.cache sid =
      some ⟨d, t1⟩ := by
    rw [hstate1]
    exact cache_set_same ..
  have hlow : ∀ u,
      (GET t1 ip sid (FetchResult.ok d) s).state.rateLimit ip = some u →
      u.count < MAX_REQUESTS := by
    intro u hu
    rw [hm1] at hu
    injection hu with h
    subst h
    norm_num [MAX_REQUESTS]
  have hrc2 := checkRateLimit_allowed_of_low t2 ip _ hlow
  have hgc2 : getCachedData t2 sid (GET t1 ip sid (FetchResult.ok d) s).state.cache =
      (some d, (GET t1 ip sid (FetchResult.ok d) s).state.cache) := by
    simp [getCachedData, hc1, hfresh]
  have hr2 := GET_allowed_hit t2 ip sid f2 _ d hrc2 (by rw [hgc2])
  have hfetch3 : ∀ t3 f3, t3 - t1 > CACHE_DURATION →
      (GET t3 ip sid f3 (GET t1 ip sid (FetchResult.ok d) s).state).fetched =
        true := by
    intro t3 f3 h3
    have hrc3 := checkRateLimit_allowed_of_low t3 ip _ hlow
    have hstale : ¬ t3 - t1 < CACHE_DURATION := not_lt.mpr (le_of_lt h3)
    have hgc3 : (getCachedData t3 sid
        (GET t1 ip sid (FetchResult.ok d) s).state.cache).1 = none := by
      simp [getCachedData, hc1, hstale]
    exact GET_fetches t3 ip sid f3 _ hrc3 hgc3
  refine ⟨?_, ?_, ?_, ?_, hfetch3⟩
  · rw [hr1]
  · rw [hr1]
  · rw [hr2]
  · rw [hr2]

/-- Witness for C6: first request at time 0, second at time 60000 (one
minute later, a cache hit with no fetch), third at time 1800001 (past the
cache duration, a fresh fetch). -/
theorem cache_single_upstream_call_witness :
    (GET 0 ipA sidA (FetchResult.ok dataA) state0).fetched = true ∧
    (GET 60000 ipA sidA FetchResult.httpError
      (GET 0 ipA sidA (FetchResult.ok dataA) state0).state).fetched = false ∧
    (GET 1800001 ipA sidA FetchResult.httpError
      (GET 0 ipA sidA (FetchResult.ok dataA) state0).state).fetched = true := by
  have h := cache_single_upstream_call state0 ipA sidA 0 60000 dataA
    FetchResult.httpError rfl rfl (by norm_num) (by decide)
  exact ⟨h.1, h.2.2.1, h.2.2.2.2 1800001 FetchResult.httpError (by decide)⟩

/-- C7: the handler returns the 429 rejection body exactly when the rate check
denies the caller; it returns the single generic 500 error body exactly when
the caller is allowed, the cache misses and the upstream fetch fails (non-ok
status and transport error collapse into the same message); in every other
case it returns the sensor payload as the JSON body. -/
theorem handler_error_semantics (now : ℤ) (ip sid : String) (f : FetchResult)
    (s : ServerState) :
    ((GET now ip sid f s).resp = ⟨429, Body.error rateLimitMsg⟩ ↔
      (checkRateLimit now ip s.rateLimit).1 = false) ∧
    ((GET now ip sid f s).resp = ⟨500, Body.error fetchFailMsg⟩ ↔
      ((checkRateLimit now ip s.rateLimit).1 = true ∧
        (getCachedData now sid s.cache).1 = none ∧ f.failed = true)) ∧
    ((checkRateLimit now ip s.rateLimit).1 = true →
      (∀ d, (getCachedData now sid s.cache).1 = some d →
        (GET now ip sid f s).resp = ⟨200, Body.payload d⟩) ∧
      (∀ d, (getCachedData now sid s.cache).1 = none → f = FetchResult.ok d →
        (GET now ip sid f s).resp = ⟨200, Body.payload d⟩)) := by
  cases hrc : (checkRateLimit now ip s.rateLimit).1 with
  | false => refine ⟨?_, ?_, ?_⟩ <;> simp [GET, hrc]
  | true =>
    cases hgc : (getCachedData now sid s.cache).1 with
    | some d => refine ⟨?_, ?_, ?_⟩ <;> simp [GET, hrc, hgc]
    | none =>
      cases f with
      | ok d =>
        refine ⟨?_, ?_, ?_⟩ <;> simp [GET, hrc, hgc, FetchResult.failed]
      | httpError =>
        refine ⟨?_, ?_, ?_⟩ <;> simp [GET, hrc, hgc, FetchResult.failed]
      | transportError =>
        refine ⟨?_, ?_, ?_⟩ <;> simp [GET, hrc, hgc, FetchResult.failed]

/-- Witness for C7: the exhausted client's request at time 5 is answered with
the 429 body, and an allowed request whose fetch hits a non-ok status is
answered with the generic 500 body. -/
theorem handler_error_semantics_witness :
    (GET 5 ipA sidA FetchResult.httpError stateFull).resp =
      ⟨429, Body.error rateLimitMsg⟩ ∧
    (GET 5 ipA sidA FetchResult.httpError state0).resp =
      ⟨500, Body.error fetchFailMsg⟩ :=
  ⟨(handler_error_semantics 5 ipA sidA FetchResult.httpError stateFull).1.mpr
      (by decide),
   (handler_error_semantics 5 ipA sidA FetchResult.httpError state0).2.1.mpr
      ⟨by decide, by decide, by decide⟩⟩
